import Mathlib

/-!
Shallow embedding of the audiobook conversion orchestrator
(`audiobook_generator/core/audiobook_generator.py`) and of the
caller-supplied configuration builder
(`audiobook_generator/config/telegram_config.py`).

Modelling conventions:
* The two external collaborators (document parser, speech backend) are
  abstracted behind an `Env` record: `rawChapters` is the list returned by
  `book_parser.get_chapters(break_string)`, `ttsResult text path` is `none`
  when `tts_provider.text_to_speech` succeeds and `some e` when it raises an
  exception with text `e`, and `priceStr n` is the two-decimal rendering of
  `tts_provider.estimate_cost(n)` (a float, which we keep opaque; the claims
  only concern the character count passed to the estimator, recorded in
  `RunState.costArg`).
* The local filesystem is explicit state: `audioFiles` is the set (list) of
  audio artifact files currently existing under the output folder,
  `fsTexts` the text dumps written.  `os.makedirs` has no observable effect
  relevant to any claim and is omitted.
* Python exceptions are the error side of `Except`; the error carries the
  `RunState` at raise time, mirroring that side effects performed before the
  raise persist.  `str.strip()` truthiness is modelled by the presence of a
  non-whitespace character (`pyStripNonEmpty`).
* In `AudiobookGenerator.__init__`, `self.send_message = send_message`
  shadows the class-level fallback method `send_message`; hence every
  `await self.send_message(...)` call invokes the constructor argument
  directly, and raises a `TypeError` when that argument was `None`.
  `sendMsgE` models exactly this.  (The exact Python `TypeError` text is
  abbreviated to a quote-free form; no claim depends on its wording.)
-/

namespace EpubToAudiobook

/-- A `(title, text)` chapter pair as produced by the book parser. -/
structure Chapter where
  title : String
  text : String
deriving DecidableEq, Repr

/-- The fields of `GeneralConfig` read (and, for `chapter_end`, written) by
`AudiobookGenerator.run`, plus representative caller-supplied fields that the
orchestrator must leave untouched. -/
structure GeneralConfig where
  input_file : String
  output_folder : String
  log : String
  preview : Bool
  output_text : Bool
  chapter_start : Int
  chapter_end : Int
  voice_name : String
deriving DecidableEq, Repr

/-- `AudioTags(title, author, book_title, idx)` built per chapter right before
the backend call. -/
structure AudioTags where
  title : String
  author : String
  bookTitle : String
  idx : Nat
deriving DecidableEq, Repr

/-- Observable state accumulated by one orchestration run. -/
structure RunState where
  /-- texts passed to the message-sink callback, in order. -/
  messages : List String
  /-- texts passed to `logger.info`, in order. -/
  logs : List String
  /-- text-dump files written: `(path, content)` pairs, in order. -/
  fsTexts : List (String × String)
  /-- audio artifact files currently existing on local storage. -/
  audioFiles : List String
  /-- every audio artifact ever produced by the backend, in order. -/
  artifacts : List String
  /-- every `AudioTags` record constructed, in order. -/
  tagsCreated : List AudioTags
  /-- every path passed to the artifact-sink callback, in order. -/
  deliveries : List String
  /-- the character count passed to `tts_provider.estimate_cost`, if any. -/
  costArg : Option Nat
deriving DecidableEq, Repr

/-- The empty state at the start of a run. -/
def initState : RunState :=
  { messages := [], logs := [], fsTexts := [], audioFiles := [], artifacts := []
    tagsCreated := [], deliveries := [], costArg := none }

/-- How the `try:` body of `run` finished: normal return, or an exception
with message `e` (the state at raise time is carried along). -/
inductive RunExit where
  | ok (st : RunState)
  | exn (e : String) (st : RunState)

/-- The outcome of a whole `run` call: final observable state, the (possibly
mutated) config object, and the exception message observed by the caller
(`none` on normal return). -/
structure RunOutcome where
  state : RunState
  config : GeneralConfig
  error : Option String

/-- The injected collaborators and callbacks of one `AudiobookGenerator`. -/
structure Env where
  /-- is the `send_message` callback present (not `None`)?  When present we
  model it as an always-succeeding accumulator of its argument. -/
  msgPresent : Bool
  /-- the `send_audio` callback: absent, or a function telling for each path
  whether the delivery call raises (`some errText`) or succeeds (`none`). -/
  audioSink : Option (String → Option String)
  /-- result of `book_parser.get_chapters(tts_provider.get_break_string())`. -/
  rawChapters : List Chapter
  /-- `tts_provider.get_output_file_extension()`. -/
  ext : String
  /-- rendering of `estimate_cost(n)` to two decimals, kept opaque. -/
  priceStr : Nat → String
  /-- `text_to_speech(text, path, tags)`: `none` = success (artifact written),
  `some e` = raises with message `e`. -/
  ttsResult : String → String → Option String
  /-- `book_parser.get_book_author()`. -/
  author : String
  /-- `book_parser.get_book_title()`. -/
  bookTitle : String

/-- `TypeError` raised when `await self.send_message(...)` is attempted while
the instance attribute `send_message` is `None`. -/
def typeErrMsg : String := "TypeError: NoneType object is not callable"

/-- Message of `ValueError` for an out-of-range start index. -/
def startErrMsg (s : Int) : String :=
  "Chapter start index " ++ toString s ++ " is out of range. Check your input."

/-- Message of `ValueError` for an out-of-range end index. -/
def endErrMsg (e : Int) : String :=
  "Chapter end index " ++ toString e ++ " is out of range. Check your input."

/-- Message of `ValueError` for start exceeding (the resolved) end. -/
def orderErrMsg (s e : Int) : String :=
  "Chapter start index " ++ toString s ++ " is larger than chapter end index "
    ++ toString e ++ ". Check your input."

/-- The first status message (note: emitted after the slice, so `n` is the
length of the already-sliced list). -/
def countMsg (n : Nat) : String := "Chapters count: " ++ toString n ++ "."

/-- The second status message. -/
def rangeMsg (s e : Int) : String :=
  "Converting chapters from " ++ toString s ++ " to " ++ toString e ++ "."

/-- The total-characters status message. -/
def totalMsg (n : Nat) : String :=
  "✨ Total characters in selected book: " ++ toString n ++ " ✨"

/-- The estimated-cost status message (`p` is the rendered price). -/
def priceMsg (p : String) : String :=
  "Estimate book voiceover would cost you roughly: $" ++ p

/-- The per-chapter pre-conversion status message. -/
def chapterMsg (preview : Bool) (idx selCount : Nat) (c : Chapter) : String :=
  (if preview then "Previewing convert chapter " else "Converting chapter ")
    ++ toString idx ++ "/" ++ toString selCount ++ ": " ++ c.title
    ++ ", characters: " ++ toString c.text.length

/-- The per-chapter post-conversion confirmation message. -/
def doneMsg (idx selCount : Nat) (title : String) : String :=
  "✅ Converted and sent chapter " ++ toString idx ++ "/" ++ toString selCount
    ++ ": " ++ title

/-- The terminal success message. -/
def allDoneMsg : String := "All chapters converted and sent. 🎉🎉🎉"

/-- Python `f"{n:04d}"` for the non-negative indices used by the loop. -/
def pad4 (n : Nat) : String :=
  let s := toString n
  if s.length < 4 then String.mk (List.replicate (4 - s.length) '0') ++ s else s

/-- `os.path.join(output_folder, f"{idx:04d}_{title}.txt")`. -/
def textPath (cfg : GeneralConfig) (idx : Nat) (title : String) : String :=
  cfg.output_folder ++ "/" ++ pad4 idx ++ "_" ++ title ++ ".txt"

/-- `os.path.join(output_folder, f"{idx:04d}_{title}.{ext}")`. -/
def outputPath (cfg : GeneralConfig) (env : Env) (idx : Nat) (title : String) : String :=
  cfg.output_folder ++ "/" ++ pad4 idx ++ "_" ++ title ++ "." ++ env.ext

/-- `get_total_chars`: the source's running-sum loop over `(title, text)`
pairs, accumulating `len(text)`. -/
def get_total_chars (chapters : List Chapter) : Nat :=
  chapters.foldl (fun acc c => acc + c.text.length) 0

/-- `os.remove(path)`: removes the file, raising `FileNotFoundError` when the
path does not exist. -/
def osRemove (fs : List String) (p : String) : Except String (List String) :=
  if p ∈ fs then .ok (fs.erase p) else .error ("FileNotFoundError: " ++ p)

/-- `await self.send_message(m)`: the instance attribute (the constructor
argument) is called directly — the class-level fallback method is shadowed —
so an absent callback raises `TypeError`. -/
def sendMsgE (env : Env) (st : RunState) (m : String) :
    Except (String × RunState) RunState :=
  if env.msgPresent then .ok { st with messages := st.messages ++ [m] }
  else .error (typeErrMsg, st)

/-- Truthiness of `text.strip()`: the stripped string is non-empty exactly
when some character is not whitespace. -/
def pyStripNonEmpty (s : String) : Bool :=
  s.data.any fun ch => !ch.isWhitespace

/-- `[(title, text) for title, text in chapters if text.strip()]`. -/
def filteredChapters (env : Env) : List Chapter :=
  env.rawChapters.filter fun c => pyStripNonEmpty c.text

/-- The range validation/resolution block of `run` (the four statements
between the chapter filter and the slice), over `N = len(chapters)`.
Returns the resolved end index.  In the source, `config.chapter_end` is
assigned `N` before the third check; this can only differ from resolving on
success when the third check fails with original end `-1`, which is
impossible: end `-1` resolves to `N` and the first check already ensured
`start ≤ N`.  Hence bundling resolution with the checks is faithful. -/
def resolveRange (N s e : Int) : Except String Int :=
  if s < 1 ∨ s > N then .error (startErrMsg s)
  else if e < -1 ∨ e > N then .error (endErrMsg e)
  else if s > (if e = -1 then N else e) then
    .error (orderErrMsg s (if e = -1 then N else e))
  else .ok (if e = -1 then N else e)

/-- Python slice `l[a:b]` for `0 ≤ a ≤ b` (the only case reached: the slice
`chapters[start-1:end]` runs after validation, so `0 ≤ start-1` and
`start-1 ≤ end ≤ len`). -/
def pySlice {α : Type} (l : List α) (a b : Int) : List α :=
  (l.drop a.toNat).take (b - a).toNat

/-- `chapters[start-1:end]` — the selected sub-range. -/
def selectedChapters (chapters : List Chapter) (s e : Int) : List Chapter :=
  pySlice chapters (s - 1) e

/-- The selected sub-range of a run whose range resolved to `e2`. -/
def selOf (env : Env) (cfg : GeneralConfig) (e2 : Int) : List Chapter :=
  selectedChapters (filteredChapters env) cfg.chapter_start e2

/-- The `AudioTags(title, get_book_author(), get_book_title(), idx)` value. -/
def mkTags (env : Env) (c : Chapter) (idx : Nat) : AudioTags :=
  { title := c.title, author := env.author, bookTitle := env.bookTitle, idx := idx }

/-- The `if self.config.output_text:` block: write the chapter text to
`<output_folder>/<idx:04d>_<title>.txt` (UTF-8) when the flag is set. -/
def dumpText (cfg : GeneralConfig) (idx : Nat) (c : Chapter) (st : RunState) :
    RunState :=
  if cfg.output_text then
    { st with fsTexts := st.fsTexts ++ [(textPath cfg idx c.title, c.text)] }
  else st

/-- The `for idx, (title, text) in enumerate(chapters, start=1):` loop of
`run`, operating on the already-sliced list, so `idx` is the 1-based position
within the slice while `chapter_start`/`chapter_end` are original ordinals. -/
def convert_loop (env : Env) (cfg : GeneralConfig) (selCount : Nat) :
    Nat → List Chapter → RunState → Except (String × RunState) RunState
  | _, [], st => .ok st
  | idx, c :: rest, st =>
    if (idx : Int) < cfg.chapter_start then
      convert_loop env cfg selCount (idx + 1) rest
        { st with logs := st.logs ++ ["skipping Chapter " ++ toString idx] }
    else if (idx : Int) > cfg.chapter_end then
      .ok { st with logs := st.logs ++ ["quitting at Chapter " ++ toString idx] }
    else
      match sendMsgE env st (chapterMsg cfg.preview idx selCount c) with
      | .error es => .error es
      | .ok st1 =>
        let st2 := dumpText cfg idx c st1
        if cfg.preview then
          convert_loop env cfg selCount (idx + 1) rest st2
        else
          let file := outputPath cfg env idx c.title
          let st3 := { st2 with tagsCreated := st2.tagsCreated ++ [mkTags env c idx] }
          match env.ttsResult c.text file with
          | some e => .error (e, st3)
          | none =>
            let st4 := { st3 with
              artifacts := st3.artifacts ++ [file]
              audioFiles := if file ∈ st3.audioFiles then st3.audioFiles
                            else st3.audioFiles ++ [file] }
            match env.audioSink with
            | none =>
              match sendMsgE env st4 (doneMsg idx selCount c.title) with
              | .error es => .error es
              | .ok st5 => convert_loop env cfg selCount (idx + 1) rest st5
            | some f =>
              let st5 := { st4 with
                logs := st4.logs ++ ["Sending audio to " ++ file]
                deliveries := st4.deliveries ++ [file] }
              match f file with
              | some e => .error (e, st5)
              | none =>
                let st6 := { st5 with
                  logs := st5.logs ++ ["Removing audio from " ++ file] }
                match osRemove st6.audioFiles file with
                | .error e => .error (e, st6)
                | .ok fs2 =>
                  let st7 := { st6 with audioFiles := fs2 }
                  match sendMsgE env st7 (doneMsg idx selCount c.title) with
                  | .error es => .error es
                  | .ok st8 => convert_loop env cfg selCount (idx + 1) rest st8

/-- The reporting stage of `run`: the four status messages sent after the
slice, in their fixed order, recording the character count passed to
`estimate_cost` between the third and fourth message. -/
def reportPhase (env : Env) (cfg : GeneralConfig) (sel : List Chapter) :
    Except (String × RunState) RunState :=
  match sendMsgE env initState (countMsg sel.length) with
  | .error es => .error es
  | .ok stA =>
    match sendMsgE env stA (rangeMsg cfg.chapter_start cfg.chapter_end) with
    | .error es => .error es
    | .ok stB =>
      let total := get_total_chars sel
      match sendMsgE env stB (totalMsg total) with
      | .error es => .error es
      | .ok stC =>
        let stD := { stC with costArg := some total }
        match sendMsgE env stD (priceMsg (env.priceStr total)) with
        | .error es => .error es
        | .ok stE => .ok stE

/-- The straight-line part of `run` after range resolution: the reporting
stage, the chapter loop, and the terminal success message. -/
def mainPhase (env : Env) (cfg : GeneralConfig) (sel : List Chapter) : RunExit :=
  match reportPhase env cfg sel with
  | .error (e, st) => .exn e st
  | .ok stE =>
    match convert_loop env cfg sel.length 1 sel stE with
    | .error (e, st) => .exn e st
    | .ok stF =>
      match sendMsgE env stF allDoneMsg with
      | .error (e, st) => .exn e st
      | .ok stG => .ok stG

/-- The `try:` body of `run`: filter, validate/resolve (mutating
`config.chapter_end` when the requested end is `-1`), slice, then
`mainPhase`.  The second component is the config object as the body leaves
it. -/
def runBody (env : Env) (cfg0 : GeneralConfig) : RunExit × GeneralConfig :=
  let chapters := filteredChapters env
  match resolveRange (chapters.length : Int) cfg0.chapter_start cfg0.chapter_end with
  | .error e => (.exn e initState, cfg0)
  | .ok e2 =>
    let cfg := { cfg0 with chapter_end := e2 }
    let sel := selectedChapters chapters cfg.chapter_start cfg.chapter_end
    (mainPhase env cfg sel, cfg)

/-- `AudiobookGenerator.run`: the body wrapped in
`except Exception as e: await self.send_message(...); raise`.  When the
message sink is absent, the handler's own send raises `TypeError`, which is
what then propagates to the caller. -/
def run (env : Env) (cfg0 : GeneralConfig) : RunOutcome :=
  match runBody env cfg0 with
  | (.ok st, cfg) => { state := st, config := cfg, error := none }
  | (.exn e st, cfg) =>
    match sendMsgE env st ("An error occurred: " ++ e) with
    | .ok st2 => { state := st2, config := cfg, error := some e }
    | .error (t, st2) => { state := st2, config := cfg, error := some t }

/-- The state carried by a loop result, whether normal or exceptional. -/
def exitState : Except (String × RunState) RunState → RunState
  | .ok st => st
  | .error (_, st) => st

/-- The state carried by a `RunExit`. -/
def exitStateRX : RunExit → RunState
  | .ok st => st
  | .exn _ st => st

/-- The state after a successful reporting stage with the message sink
present: the four status messages, and the estimator argument on record. -/
def reportedState (env : Env) (cfg : GeneralConfig) (sel : List Chapter) :
    RunState :=
  { messages := [countMsg sel.length, rangeMsg cfg.chapter_start cfg.chapter_end,
                 totalMsg (get_total_chars sel),
                 priceMsg (env.priceStr (get_total_chars sel))]
    logs := [], fsTexts := [], audioFiles := [], artifacts := []
    tagsCreated := [], deliveries := [], costArg := some (get_total_chars sel) }

/-!
Embedding of `CustomGeneralConfig.__init__`
(`audiobook_generator/config/telegram_config.py`): an `argparse.Namespace`
is populated with a literal dictionary of defaults, then caller-supplied
arguments override recognised keys while unrecognised keys only print a
warning.  Attribute values are modelled by a small Python-value type; the
namespace is an association list written through `setattr`.  The `tts`
default is `get_supported_tts_providers()[0]`, a collaborator call, kept as
the parameter `tts0`.
-/

/-- The Python values appearing in the defaults dictionary. -/
inductive PyVal where
  | pyNone
  | pyStr (s : String)
  | pyBool (b : Bool)
  | pyInt (n : Int)
deriving DecidableEq, Repr

/-- The `default_values` dictionary, in source order.  Note the
debugging-leftover defaults `chapter_start = 4` and `chapter_end = 6`. -/
def defaultsList (tts0 : String) : List (String × PyVal) :=
  [("input_file", .pyNone), ("output_folder", .pyNone), ("tts", .pyStr tts0),
   ("log", .pyStr "INFO"), ("preview", .pyBool false), ("no_prompt", .pyBool false),
   ("language", .pyStr "en-US"), ("newline_mode", .pyStr "double"),
   ("title_mode", .pyStr "auto"),
   ("chapter_start", .pyInt 4), ("chapter_end", .pyInt 6),
   ("output_text", .pyBool false), ("remove_endnotes", .pyBool false),
   ("voice_name", .pyNone), ("output_format", .pyNone), ("model_name", .pyNone),
   ("voice_rate", .pyNone), ("voice_volume", .pyNone), ("voice_pitch", .pyNone),
   ("proxy", .pyNone), ("break_duration", .pyStr "1250")]

/-- `setattr(args, k, v)` on the namespace-as-association-list. -/
def setattr (ns : List (String × PyVal)) (k : String) (v : PyVal) :
    List (String × PyVal) :=
  match ns with
  | [] => [(k, v)]
  | (k2, v2) :: rest => if k2 = k then (k, v) :: rest else (k2, v2) :: setattr rest k v

/-- `getattr`-style lookup on the namespace. -/
def lookupAttr : List (String × PyVal) → String → Option PyVal
  | [], _ => none
  | (k2, v) :: rest, k => if k2 = k then some v else lookupAttr rest k

/-- `key in default_values`. -/
def knownKey (tts0 k : String) : Bool :=
  (defaultsList tts0).any fun kv => kv.1 == k

/-- The printed warning for an unrecognised key (Python wraps the key in
single quotes; no claim depends on the quoting). -/
def warnMsg (k : String) : String :=
  "Warning: " ++ k ++ " is not a recognized attribute and will be ignored."

/-- The `for key, value in custom_args.items():` loop, carrying the namespace
and the warnings printed so far. -/
def applyCustom (tts0 : String) :
    List (String × PyVal) → List (String × PyVal) × List String →
    List (String × PyVal) × List String
  | [], acc => acc
  | (k, v) :: rest, (ns, ws) =>
    if knownKey tts0 k then applyCustom tts0 rest (setattr ns k v, ws)
    else applyCustom tts0 rest (ns, ws ++ [warnMsg k])

/-- The namespace after the defaults loop (`setattr` for every default). -/
def initialArgs (tts0 : String) : List (String × PyVal) :=
  (defaultsList tts0).foldl (fun ns kv => setattr ns kv.1 kv.2) []

/-- `CustomGeneralConfig.__init__(custom_args)` up to the `super().__init__`
call: the fully-populated namespace and the warnings printed.  Construction
is a total function — it never fails, whatever `custom_args` contains. -/
def buildArgs (tts0 : String) (custom : List (String × PyVal)) :
    List (String × PyVal) × List String :=
  applyCustom tts0 custom (initialArgs tts0, [])

/-!  Concrete environments and configs used to evaluate the orchestrator on
the scenario inputs of the specification.  -/

/-- Six one-character, non-blank chapters. -/
def sixChapters : List Chapter :=
  [{ title := "t1", text := "a" }, { title := "t2", text := "b" },
   { title := "t3", text := "c" }, { title := "t4", text := "d" },
   { title := "t5", text := "e" }, { title := "t6", text := "f" }]

/-- A six-chapter document, message sink present, no artifact sink, backend
always succeeds. -/
def envSix : Env :=
  { msgPresent := true, audioSink := none, rawChapters := sixChapters
    ext := "mp3", priceStr := fun _ => "0.00", ttsResult := fun _ _ => none
    author := "A", bookTitle := "B" }

/-- The scenario request `start=4, end=6`, live mode, no text dumps. -/
def cfgStart4End6 : GeneralConfig :=
  { input_file := "book.epub", output_folder := "out", log := "INFO"
    preview := false, output_text := false
    chapter_start := 4, chapter_end := 6, voice_name := "v" }

/-- The preview variant of the same request, with text dumps enabled. -/
def cfgPreviewDump : GeneralConfig :=
  { cfgStart4End6 with preview := true, output_text := true }

/-- A two-chapter document whose artifact sink raises on every delivery. -/
def envDeliveryFail : Env :=
  { msgPresent := true, audioSink := some fun _ => some "boom"
    rawChapters := [{ title := "t1", text := "a" }, { title := "t2", text := "b" }]
    ext := "mp3", priceStr := fun _ => "0.00", ttsResult := fun _ _ => none
    author := "A", bookTitle := "B" }

/-- The whole-book request `start=1, end=2` for the two-chapter document. -/
def cfgWhole2 : GeneralConfig :=
  { input_file := "book.epub", output_folder := "out", log := "INFO"
    preview := false, output_text := false
    chapter_start := 1, chapter_end := 2, voice_name := "v" }

/-- The two-chapter document again, but with an artifact sink whose delivery
always succeeds. -/
def envDeliverOk : Env :=
  { envDeliveryFail with audioSink := some fun _ => none }

/-- A one-chapter document with no message sink at all. -/
def envNoSink : Env :=
  { msgPresent := false, audioSink := none
    rawChapters := [{ title := "t1", text := "hello" }]
    ext := "mp3", priceStr := fun _ => "0.00", ttsResult := fun _ _ => none
    author := "A", bookTitle := "B" }

/-- The whole-book request `start=1, end=1` for the one-chapter document. -/
def cfgWhole1 : GeneralConfig :=
  { input_file := "book.epub", output_folder := "out", log := "INFO"
    preview := false, output_text := false
    chapter_start := 1, chapter_end := 1, voice_name := "v" }

/-- The out-of-range request `start=7, end=-1` (for the six-chapter doc). -/
def cfgStart7 : GeneralConfig :=
  { cfgStart4End6 with chapter_start := 7, chapter_end := -1 }

/-- A concrete caller-argument dictionary with one recognised and one
unrecognised key. -/
def customSample : List (String × PyVal) :=
  [("language", .pyStr "fr"), ("bogus", .pyInt 1)]

/-- Claim C1: on a document with 6 filtered chapters and the requested range
`start=4, end=6`, the run in fact reports "Chapters count: 3." (the length of
the already-sliced list), then skips every chapter of the slice — the
defensive `idx < chapter_start` test compares the 1-based position inside the
slice with the original ordinal 4 — converts nothing, produces zero audio
artifacts (in particular none named `0004_`/`0005_`/`0006_`), and still ends
with the success message.  This evaluates the embedded `run` at the scenario
input and refutes the claimed transcript and artifact set. -/
theorem run_start4_end6_scenario :
    (run envSix cfgStart4End6).state.messages =
      [countMsg 3, rangeMsg 4 6, totalMsg 3, priceMsg "0.00", allDoneMsg]
    ∧ (run envSix cfgStart4End6).state.logs =
      ["skipping Chapter 1", "skipping Chapter 2", "skipping Chapter 3"]
    ∧ (run envSix cfgStart4End6).state.artifacts = []
    ∧ (run envSix cfgStart4End6).state.audioFiles = []
    ∧ (run envSix cfgStart4End6).error = none := by
  refine ⟨?_, ?_, ?_, ?_, ?_⟩ <;> rfl

/-- Claim C3: with no message-sink callback, the very first status message
raises `TypeError` — the instance attribute `send_message` (holding `None`)
shadows the logging fallback method — so the run fails, nothing is routed to
the logger, and the error handler itself raises again.  This evaluates the
embedded `run` on a valid one-chapter request without a sink. -/
theorem run_without_message_sink_fails :
    (run envNoSink cfgWhole1).error = some typeErrMsg
    ∧ (run envNoSink cfgWhole1).state.messages = []
    ∧ (run envNoSink cfgWhole1).state.logs = [] := by
  refine ⟨?_, ?_, ?_⟩ <;> rfl

/-- Claim C6: preview mode with the text-dump flag set and the requested
range `start=4, end=6` over 6 chapters writes zero text dumps — every
selected chapter is skipped by the misapplied `idx < chapter_start` test —
although the claim requires one dump per selected chapter.  (Zero artifacts
and zero deliveries do hold.) -/
theorem run_preview_dump_scenario :
    (run envSix cfgPreviewDump).state.fsTexts = []
    ∧ (run envSix cfgPreviewDump).state.artifacts = []
    ∧ (run envSix cfgPreviewDump).state.deliveries = []
    ∧ (run envSix cfgPreviewDump).error = none := by
  refine ⟨?_, ?_, ?_, ?_⟩ <;> rfl

/-- Claim C2 (counterexample): a run whose artifact sink raises "boom" on
chapter 1 of 2 aborts immediately — the error is reported through the
top-level handler and propagates, the chapter's artifact is NOT deleted
(it is still on local storage), and chapter 2 is never converted — refuting
"the artifact is nevertheless deleted and the run continues". -/
theorem delivery_failure_counterexample :
    (run envDeliveryFail cfgWhole2).error = some "boom"
    ∧ (run envDeliveryFail cfgWhole2).state.audioFiles = ["out/0001_t1.mp3"]
    ∧ (run envDeliveryFail cfgWhole2).state.artifacts = ["out/0001_t1.mp3"]
    ∧ (run envDeliveryFail cfgWhole2).state.deliveries = ["out/0001_t1.mp3"]
    ∧ (run envDeliveryFail cfgWhole2).state.messages.getLast? =
        some "An error occurred: boom" := by
  refine ⟨?_, ?_, ?_, ?_, ?_⟩ <;> rfl

/-- Claim C8 (counterexample): `os.remove` on an absent artifact raises
`FileNotFoundError` — deletion of a non-existent artifact is an error, not a
tolerated success. -/
theorem osRemove_missing_counterexample :
    osRemove [] "out/0001_t1.mp3" = .error "FileNotFoundError: out/0001_t1.mp3" := by
  rfl

/-- Any invalid requested range makes `resolveRange` raise one of the three
`ValueError`s, whose message carries the offending bound and value. -/
lemma resolveRange_invalid (N s e : Int) (hN : 0 ≤ N)
    (h : s < 1 ∨ s > N ∨ e < -1 ∨ e > N ∨ (if e = -1 then N else e) < s) :
    ∃ er, resolveRange N s e = .error er ∧
      (er = startErrMsg s ∨ er = endErrMsg e ∨
       er = orderErrMsg s (if e = -1 then N else e)) := by
  by_cases h1 : s < 1 ∨ s > N
  · exact ⟨_, by rw [resolveRange, if_pos h1], Or.inl rfl⟩
  · by_cases h2 : e < -1 ∨ e > N
    · refine ⟨_, ?_, Or.inr (Or.inl rfl)⟩
      rw [resolveRange, if_neg h1, if_pos h2]
    · have h3 : s > (if e = -1 then N else e) := by
        split_ifs with he
        · rw [if_pos he] at h; omega
        · rw [if_neg he] at h; omega
      refine ⟨_, ?_, Or.inr (Or.inr rfl)⟩
      rw [resolveRange, if_neg h1, if_neg h2, if_pos h3]

/-- A valid requested range makes `resolveRange` succeed, returning `e` (or
`N` when the sentinel `-1` was requested). -/
lemma resolveRange_valid (N s e : Int) (hN : 0 ≤ N) (h1 : 1 ≤ s)
    (h2 : (s ≤ e ∧ e ≤ N) ∨ (e = -1 ∧ s ≤ N)) :
    resolveRange N s e = .ok (if e = -1 then N else e) := by
  unfold resolveRange
  rcases h2 with ⟨hse, heN⟩ | ⟨he, hsN⟩
  · have hne : ¬ (e = -1) := by omega
    rw [if_neg hne, if_neg (show ¬ (s < 1 ∨ s > N) by omega),
        if_neg (show ¬ (e < -1 ∨ e > N) by omega), if_neg (show ¬ s > e by omega)]
  · subst he
    rw [if_pos (show (-1 : Int) = -1 from rfl),
        if_neg (show ¬ (s < 1 ∨ s > N) by omega),
        if_neg (show ¬ ((-1 : Int) < -1 ∨ (-1 : Int) > N) by omega),
        if_neg (show ¬ s > N by omega)]

/-- `resolveRange` succeeds only on valid ranges, and its result is the
requested end with the `-1` sentinel resolved to `N`. -/
lemma resolveRange_ok_inv (N s e e2 : Int) (hN : 0 ≤ N)
    (h : resolveRange N s e = .ok e2) :
    1 ≤ s ∧ s ≤ N ∧ s ≤ e2 ∧ e2 ≤ N ∧
      ((e = -1 ∧ e2 = N) ∨ (e ≠ -1 ∧ e2 = e)) := by
  unfold resolveRange at h
  by_cases h1 : s < 1 ∨ s > N
  · rw [if_pos h1] at h; simp at h
  · rw [if_neg h1] at h
    by_cases hb : e < -1 ∨ e > N
    · rw [if_pos hb] at h; simp at h
    · rw [if_neg hb] at h
      by_cases he : e = -1
      · rw [if_pos he] at h
        by_cases h3 : s > N
        · rw [if_pos h3] at h; simp at h
        · rw [if_neg h3] at h
          simp only [Except.ok.injEq] at h
          exact ⟨by omega, by omega, by omega, by omega, Or.inl ⟨he, h.symm⟩⟩
      · rw [if_neg he] at h
        by_cases h3 : s > e
        · rw [if_pos h3] at h; simp at h
        · rw [if_neg h3] at h
          simp only [Except.ok.injEq] at h
          exact ⟨by omega, by omega, by omega, by omega, Or.inr ⟨he, h.symm⟩⟩

/-- Claim C5: for every filtered chapter sequence and requested range with
`1 ≤ start ≤ end ≤ N`, or `end = -1` with `1 ≤ start ≤ N`, range resolution
succeeds without error, resolving `end := N` in the sentinel case, and the
slice `chapters[start-1:end]` selects exactly `end − start + 1` chapters, the
`i`-th selected chapter being the original chapter at position
`start - 1 + i` (original order preserved). -/
theorem resolveRange_valid_selects (chapters : List Chapter) (s e : Int)
    (h1 : 1 ≤ s)
    (h2 : (s ≤ e ∧ e ≤ (chapters.length : Int)) ∨
          (e = -1 ∧ s ≤ (chapters.length : Int))) :
    ∃ e2, resolveRange (chapters.length : Int) s e = .ok e2
      ∧ e2 = (if e = -1 then (chapters.length : Int) else e)
      ∧ ((selectedChapters chapters s e2).length : Int) = e2 - s + 1
      ∧ ∀ i : Nat, i < (selectedChapters chapters s e2).length →
          (selectedChapters chapters s e2).get? i = chapters.get? ((s - 1).toNat + i) := by
  have hN : (0 : Int) ≤ (chapters.length : Int) := Int.natCast_nonneg _
  refine ⟨_, resolveRange_valid _ _ _ hN h1 h2, rfl, ?_, ?_⟩
  · have hbound : (if e = -1 then (chapters.length : Int) else e) ≤ (chapters.length : Int) := by
      by_cases he : e = -1 <;> simp [he] <;> omega
    have hge : s ≤ (if e = -1 then (chapters.length : Int) else e) := by
      by_cases he : e = -1 <;> simp [he] <;> omega
    simp only [selectedChapters, pySlice, List.length_take, List.length_drop]
    omega
  · intro i hi
    simp only [selectedChapters, pySlice, List.length_take, List.length_drop] at hi
    simp only [selectedChapters, pySlice]
    rw [List.get?_take (by omega : i < ((if e = -1 then (chapters.length : Int) else e) - (s - 1)).toNat), List.get?_drop]

/-- Claim C5 (witness): six chapters, request `start=2, end=-1` resolves to
`end=6` and selects the 5 chapters 2..6 in order. -/
theorem resolveRange_valid_selects_witness :
    (1 : Int) ≤ 2 ∧
    (∃ e2, resolveRange ((sixChapters.length : Nat) : Int) 2 (-1) = .ok e2
      ∧ e2 = (if (-1 : Int) = -1 then ((sixChapters.length : Nat) : Int) else -1)
      ∧ ((selectedChapters sixChapters 2 e2).length : Int) = e2 - 2 + 1
      ∧ ∀ i : Nat, i < (selectedChapters sixChapters 2 e2).length →
          (selectedChapters sixChapters 2 e2).get? i =
            sixChapters.get? (((2 : Int) - 1).toNat + i)) :=
  ⟨by norm_num,
   resolveRange_valid_selects sixChapters 2 (-1) (by norm_num)
     (Or.inr ⟨rfl, by decide⟩)⟩

/-- Claim C4: whenever the requested range is invalid — `start < 1`,
`start > N`, `end < -1`, `end > N`, or resolved `end < start` — the run (with
a message sink present) aborts with one of the three `ValueError`s, whose
message names the offending bound and value; the error text is surfaced to
the message sink (as the only message, via the top-level handler) and
propagated to the caller, and zero audio artifacts, zero deliveries, zero
files on disk and zero text dumps are produced. -/
theorem run_invalid_range_aborts (env : Env) (cfg : GeneralConfig)
    (hmsg : env.msgPresent = true)
    (h : cfg.chapter_start < 1 ∨
         cfg.chapter_start > ((filteredChapters env).length : Int) ∨
         cfg.chapter_end < -1 ∨
         cfg.chapter_end > ((filteredChapters env).length : Int) ∨
         (if cfg.chapter_end = -1 then ((filteredChapters env).length : Int)
          else cfg.chapter_end) < cfg.chapter_start) :
    ∃ er, (run env cfg).error = some er
      ∧ (run env cfg).state.messages = ["An error occurred: " ++ er]
      ∧ (run env cfg).state.artifacts = []
      ∧ (run env cfg).state.deliveries = []
      ∧ (run env cfg).state.audioFiles = []
      ∧ (run env cfg).state.fsTexts = []
      ∧ (er = startErrMsg cfg.chapter_start ∨ er = endErrMsg cfg.chapter_end ∨
         er = orderErrMsg cfg.chapter_start
           (if cfg.chapter_end = -1 then ((filteredChapters env).length : Int)
            else cfg.chapter_end)) := by
  obtain ⟨er, her, hcase⟩ :=
    resolveRange_invalid ((filteredChapters env).length : Int) cfg.chapter_start
      cfg.chapter_end (Int.natCast_nonneg _) h
  refine ⟨er, ?_, ?_, ?_, ?_, ?_, ?_, hcase⟩ <;>
    simp [run, runBody, her, sendMsgE, hmsg, initState]

/-- Claim C4 (witness): six chapters, request `start=7, end=-1` aborts with
the start-bound `ValueError` naming index 7, zero artifacts, zero
deliveries. -/
theorem run_invalid_range_aborts_witness :
    envSix.msgPresent = true ∧
    (∃ er, (run envSix cfgStart7).error = some er
      ∧ (run envSix cfgStart7).state.messages = ["An error occurred: " ++ er]
      ∧ (run envSix cfgStart7).state.artifacts = []
      ∧ (run envSix cfgStart7).state.deliveries = []
      ∧ (run envSix cfgStart7).state.audioFiles = []
      ∧ (run envSix cfgStart7).state.fsTexts = []
      ∧ (er = startErrMsg cfgStart7.chapter_start ∨
         er = endErrMsg cfgStart7.chapter_end ∨
         er = orderErrMsg cfgStart7.chapter_start
           (if cfgStart7.chapter_end = -1 then ((filteredChapters envSix).length : Int)
            else cfgStart7.chapter_end))) :=
  ⟨rfl, run_invalid_range_aborts envSix cfgStart7 rfl (by decide)⟩

/-- `b` extends `a`: the estimator-argument record is unchanged and the
message transcript of `b` is that of `a` plus a suffix.  The conversion loop
and the exception handler only ever extend the state in this sense. -/
def StExt (a b : RunState) : Prop :=
  b.costArg = a.costArg ∧ ∃ ms, b.messages = a.messages ++ ms

lemma stExt_refl (a : RunState) : StExt a a := ⟨rfl, [], by simp⟩

lemma stExt_of_msgs_eq {a b : RunState} (h1 : b.costArg = a.costArg)
    (h2 : b.messages = a.messages) : StExt a b := ⟨h1, [], by simp [h2]⟩

lemma stExt_msg (a : RunState) (m : String) :
    StExt a { a with messages := a.messages ++ [m] } := ⟨rfl, [m], rfl⟩

lemma stExt_trans {a b c : RunState} (h1 : StExt a b) (h2 : StExt b c) :
    StExt a c := by
  obtain ⟨hc1, ms1, hm1⟩ := h1
  obtain ⟨hc2, ms2, hm2⟩ := h2
  exact ⟨hc2.trans hc1, ms1 ++ ms2, by rw [hm2, hm1, List.append_assoc]⟩

/-- Inversion for a successful message send. -/
lemma sendMsgE_ok_inv {env : Env} {st st1 : RunState} {m : String}
    (h : sendMsgE env st m = .ok st1) :
    st1 = { st with messages := st.messages ++ [m] } := by
  unfold sendMsgE at h
  by_cases hp : env.msgPresent
  · rw [if_pos hp] at h
    exact (Except.ok.inj h).symm
  · rw [if_neg hp] at h
    exact absurd h (by simp)

/-- Inversion for a failed message send: the callback is absent, the raised
error is the `TypeError`, and the state is unchanged. -/
lemma sendMsgE_error_inv {env : Env} {st st1 : RunState} {m e : String}
    (h : sendMsgE env st m = .error (e, st1)) :
    e = typeErrMsg ∧ st1 = st := by
  unfold sendMsgE at h
  by_cases hp : env.msgPresent
  · rw [if_pos hp] at h
    exact absurd h (by simp)
  · rw [if_neg hp] at h
    injection h with h2
    injection h2 with ha hb
    exact ⟨ha.symm, hb.symm⟩

/-- Writing the optional text dump never changes the message transcript. -/
lemma dumpText_messages (cfg : GeneralConfig) (idx : Nat) (c : Chapter)
    (st : RunState) : (dumpText cfg idx c st).messages = st.messages := by
  unfold dumpText; split <;> rfl

/-- Writing the optional text dump never changes the estimator record. -/
lemma dumpText_costArg (cfg : GeneralConfig) (idx : Nat) (c : Chapter)
    (st : RunState) : (dumpText cfg idx c st).costArg = st.costArg := by
  unfold dumpText; split <;> rfl

/-- Writing the optional text dump never touches the audio files on disk. -/
lemma dumpText_audioFiles (cfg : GeneralConfig) (idx : Nat) (c : Chapter)
    (st : RunState) : (dumpText cfg idx c st).audioFiles = st.audioFiles := by
  unfold dumpText; split <;> rfl

/-- Writing the optional text dump never touches the artifact record. -/
lemma dumpText_artifacts (cfg : GeneralConfig) (idx : Nat) (c : Chapter)
    (st : RunState) : (dumpText cfg idx c st).artifacts = st.artifacts := by
  unfold dumpText; split <;> rfl

/-- Writing the optional text dump never touches the delivery record. -/
lemma dumpText_deliveries (cfg : GeneralConfig) (idx : Nat) (c : Chapter)
    (st : RunState) : (dumpText cfg idx c st).deliveries = st.deliveries := by
  unfold dumpText; split <;> rfl

/-- Wherever the conversion loop stops — normal return, break, or an
exception carried out — the resulting state extends the entry state: the
recorded estimator argument is untouched and messages only accumulate. -/
lemma convert_loop_stExt (env : Env) (cfg : GeneralConfig) (selCount : Nat)
    (chs : List Chapter) :
    ∀ (idx : Nat) (st : RunState),
      StExt st (exitState (convert_loop env cfg selCount idx chs st)) := by
  induction chs with
  | nil => intro idx st; exact stExt_refl st
  | cons c rest ih =>
    intro idx st
    simp only [convert_loop]
    by_cases hskip : (idx : Int) < cfg.chapter_start
    · rw [if_pos hskip]; exact ih _ _
    rw [if_neg hskip]
    by_cases hquit : (idx : Int) > cfg.chapter_end
    · rw [if_pos hquit]; exact stExt_of_msgs_eq rfl rfl
    rw [if_neg hquit]
    split
    · rename_i es heq
      obtain ⟨e, st1⟩ := es
      obtain ⟨-, hst⟩ := sendMsgE_error_inv heq
      subst hst
      exact stExt_of_msgs_eq rfl rfl
    · rename_i st1 heq
      have hst1 := sendMsgE_ok_inv heq
      subst hst1
      by_cases hprev : cfg.preview = true
      · rw [if_pos hprev]
        refine stExt_trans ?_ (ih _ _)
        exact ⟨by simp [dumpText_costArg],
          [chapterMsg cfg.preview idx selCount c], by simp [dumpText_messages]⟩
      rw [if_neg hprev]
      split
      · exact ⟨by simp [exitState, dumpText_costArg],
          [chapterMsg cfg.preview idx selCount c],
          by simp [exitState, dumpText_messages]⟩
      split
      · split
        · rename_i es heq2
          obtain ⟨e, stx⟩ := es
          obtain ⟨-, hstx⟩ := sendMsgE_error_inv heq2
          subst hstx
          exact ⟨by simp [exitState, dumpText_costArg],
            [chapterMsg cfg.preview idx selCount c],
            by simp [exitState, dumpText_messages]⟩
        · rename_i stx heq2
          have hstx := sendMsgE_ok_inv heq2
          subst hstx
          refine stExt_trans ?_ (ih _ _)
          exact ⟨by simp [dumpText_costArg],
            [chapterMsg cfg.preview idx selCount c, doneMsg idx selCount c.title],
            by simp [dumpText_messages]⟩
      · split
        · exact ⟨by simp [exitState, dumpText_costArg],
            [chapterMsg cfg.preview idx selCount c],
            by simp [exitState, dumpText_messages]⟩
        split
        · exact ⟨by simp [exitState, dumpText_costArg],
            [chapterMsg cfg.preview idx selCount c],
            by simp [exitState, dumpText_messages]⟩
        rename_i fs2 hr
        split
        · rename_i es heq2
          obtain ⟨e, stx⟩ := es
          obtain ⟨-, hstx⟩ := sendMsgE_error_inv heq2
          subst hstx
          exact ⟨by simp [exitState, dumpText_costArg],
            [chapterMsg cfg.preview idx selCount c],
            by simp [exitState, dumpText_messages]⟩
        · rename_i stx heq2
          have hstx := sendMsgE_ok_inv heq2
          subst hstx
          refine stExt_trans ?_ (ih _ _)
          exact ⟨by simp [dumpText_costArg],
            [chapterMsg cfg.preview idx selCount c, doneMsg idx selCount c.title],
            by simp [dumpText_messages]⟩

/-- A present message sink always accumulates the message. -/
lemma sendMsgE_present (env : Env) (hp : env.msgPresent = true)
    (st : RunState) (m : String) :
    sendMsgE env st m = .ok { st with messages := st.messages ++ [m] } := by
  unfold sendMsgE; rw [if_pos hp]

/-- With the message sink present, the reporting stage succeeds and produces
exactly the four status messages and the estimator record. -/
lemma reportPhase_present (env : Env) (cfg : GeneralConfig) (sel : List Chapter)
    (hmsg : env.msgPresent = true) :
    reportPhase env cfg sel = .ok (reportedState env cfg sel) := by
  simp only [reportPhase, sendMsgE_present env hmsg]
  simp [reportedState, initState]

/-- With the message sink present, the state `mainPhase` finishes in — by
normal return or carried on an exception — extends the reported state:
messages start with the four status messages and the estimator argument
stays on record. -/
lemma mainPhase_shape (env : Env) (cfg : GeneralConfig) (sel : List Chapter)
    (hmsg : env.msgPresent = true) :
    ∃ ms, (exitStateRX (mainPhase env cfg sel)).messages =
        (reportedState env cfg sel).messages ++ ms
      ∧ (exitStateRX (mainPhase env cfg sel)).costArg =
          some (get_total_chars sel) := by
  obtain ⟨hc, ms, hm⟩ :=
    convert_loop_stExt env cfg sel.length sel 1 (reportedState env cfg sel)
  simp only [mainPhase, reportPhase_present env cfg sel hmsg]
  split
  · rename_i e st heq
    rw [heq] at hc hm
    simp only [exitState] at hc hm
    exact ⟨ms, by simp [exitStateRX, hm], by
      simp [exitStateRX, hc, reportedState]⟩
  · rename_i stF heq
    rw [heq] at hc hm
    simp only [exitState] at hc hm
    split
    · rename_i e st heq2
      rw [sendMsgE_present env hmsg] at heq2
      simp at heq2
    · rename_i stG heq2
      have hstG := sendMsgE_ok_inv heq2
      subst hstG
      refine ⟨ms ++ [allDoneMsg], ?_, ?_⟩
      · simp [exitStateRX, hm]
      · simp [exitStateRX, hc, reportedState]

/-- With a valid resolved range and the message sink present, the run's final
message transcript starts with the four status messages of the reporting
stage (chapter count of the slice, range, total characters of the slice,
price), and the character count passed to the estimator is the total over
the selected sub-range. -/
lemma run_valid_shape (env : Env) (cfg : GeneralConfig) (e2 : Int)
    (hmsg : env.msgPresent = true)
    (hok : resolveRange ((filteredChapters env).length : Int) cfg.chapter_start
        cfg.chapter_end = .ok e2) :
    ∃ ms, (run env cfg).state.messages =
        (reportedState env { cfg with chapter_end := e2 } (selOf env cfg e2)).messages
          ++ ms
      ∧ (run env cfg).state.costArg = some (get_total_chars (selOf env cfg e2)) := by
  obtain ⟨ms, hm, hc⟩ :=
    mainPhase_shape env { cfg with chapter_end := e2 } (selOf env cfg e2) hmsg
  simp only [selOf] at hm hc
  simp only [run, runBody, hok]
  split
  · rename_i st cfg2 heq
    injection heq with h1 h2
    rw [h1] at hm hc
    simp only [exitStateRX] at hm hc
    exact ⟨ms, by simpa [selOf] using hm, by simpa [selOf] using hc⟩
  · rename_i e st cfg2 heq
    injection heq with h1 h2
    rw [h1] at hm hc
    simp only [exitStateRX] at hm hc
    rw [sendMsgE_present env hmsg]
    refine ⟨ms ++ ["An error occurred: " ++ e], ?_, ?_⟩
    · simp only [selOf]
      simp [hm]
    · simp only [selOf]
      simp [hc]

/-- The running-sum loop of `get_total_chars` computes the sum of the text
lengths. -/
lemma get_total_chars_eq_sum (l : List Chapter) :
    get_total_chars l = (l.map fun c => c.text.length).sum := by
  have key : ∀ (l : List Chapter) (a : Nat),
      l.foldl (fun acc c => acc + c.text.length) a =
        a + (l.map fun c => c.text.length).sum := by
    intro l
    induction l with
    | nil => intro a; simp
    | cons c rest ih =>
      intro a
      simp only [List.foldl_cons, List.map_cons, List.sum_cons, ih]
      omega
  simpa [get_total_chars] using key l 0

/-- Taking four elements of a list starting with four elements returns
exactly those four. -/
lemma take_four {α : Type} (a b c d : α) (ms : List α) :
    (([a, b, c, d] ++ ms).take 4) = [a, b, c, d] := rfl

/-- Claim C7: with the message sink present and a resolved range `e2`, the
character count passed to the backend's `estimate_cost` equals
`get_total_chars` of the selected slice only, which is exactly the sum of
the text lengths of the chapters inside the resolved range (chapters outside
the slice contribute nothing); the report — including the total-characters
message — forms the first four messages of the transcript, before any
per-chapter conversion message. -/
theorem run_total_characters (env : Env) (cfg : GeneralConfig) (e2 : Int)
    (hmsg : env.msgPresent = true)
    (hok : resolveRange ((filteredChapters env).length : Int) cfg.chapter_start
        cfg.chapter_end = .ok e2) :
    (run env cfg).state.costArg = some (get_total_chars (selOf env cfg e2))
    ∧ get_total_chars (selOf env cfg e2) =
        ((selOf env cfg e2).map fun c => c.text.length).sum
    ∧ (run env cfg).state.messages.take 4 =
        [countMsg (selOf env cfg e2).length,
         rangeMsg cfg.chapter_start e2,
         totalMsg (get_total_chars (selOf env cfg e2)),
         priceMsg (env.priceStr (get_total_chars (selOf env cfg e2)))] := by
  obtain ⟨ms, hm, hc⟩ := run_valid_shape env cfg e2 hmsg hok
  refine ⟨hc, get_total_chars_eq_sum _, ?_⟩
  rw [hm]
  exact take_four _ _ _ _ ms

/-- Claim C7 (witness): the `start=4, end=6` scenario on six one-character
chapters reports and charges exactly the 3 characters of the slice. -/
theorem run_total_characters_witness :
    envSix.msgPresent = true ∧
    ((run envSix cfgStart4End6).state.costArg =
        some (get_total_chars (selOf envSix cfgStart4End6 6))
    ∧ get_total_chars (selOf envSix cfgStart4End6 6) =
        ((selOf envSix cfgStart4End6 6).map fun c => c.text.length).sum
    ∧ (run envSix cfgStart4End6).state.messages.take 4 =
        [countMsg (selOf envSix cfgStart4End6 6).length,
         rangeMsg cfgStart4End6.chapter_start 6,
         totalMsg (get_total_chars (selOf envSix cfgStart4End6 6)),
         priceMsg (envSix.priceStr (get_total_chars (selOf envSix cfgStart4End6 6)))]) :=
  ⟨rfl, run_total_characters envSix cfgStart4End6 6 rfl rfl⟩

/-- The config object a run returns is the one the body leaves behind. -/
lemma run_config_eq (env : Env) (cfg : GeneralConfig) :
    (run env cfg).config = (runBody env cfg).2 := by
  unfold run
  rcases hb : runBody env cfg with ⟨ex, cfg2⟩
  cases ex with
  | ok st => rfl
  | exn e st =>
    show (match sendMsgE env st ("An error occurred: " ++ e) with
          | Except.ok st2 => ({ state := st2, config := cfg2, error := some e } : RunOutcome)
          | Except.error (t, st2) =>
              { state := st2, config := cfg2, error := some t }).config = cfg2
    cases hs : sendMsgE env st ("An error occurred: " ++ e) with
    | ok st2 => rfl
    | error p => rcases p with ⟨t, st2⟩; rfl

/-- Claim C9: the orchestrator leaves every config field unchanged except
`chapter_end`, which is overwritten (once, before the loop) exactly when the
requested end is the sentinel `-1` and the start bound is valid, in which
case it becomes the filtered chapter count `N`. -/
theorem run_config_frame (env : Env) (cfg : GeneralConfig) :
    (run env cfg).config =
      if cfg.chapter_end = -1 ∧ 1 ≤ cfg.chapter_start ∧
         cfg.chapter_start ≤ ((filteredChapters env).length : Int)
      then { cfg with chapter_end := ((filteredChapters env).length : Int) }
      else cfg := by
  rw [run_config_eq]
  have hN : (0 : Int) ≤ ((filteredChapters env).length : Int) := Int.natCast_nonneg _
  simp only [runBody]
  cases hres : resolveRange ((filteredChapters env).length : Int) cfg.chapter_start
      cfg.chapter_end with
  | error e =>
    have hcond : ¬(cfg.chapter_end = -1 ∧ 1 ≤ cfg.chapter_start ∧
        cfg.chapter_start ≤ ((filteredChapters env).length : Int)) := by
      rintro ⟨he, h1, h2⟩
      have hv := resolveRange_valid ((filteredChapters env).length : Int)
        cfg.chapter_start cfg.chapter_end hN h1 (Or.inr ⟨he, h2⟩)
      rw [hres] at hv
      exact absurd hv (by simp)
    rw [if_neg hcond]
  | ok e2 =>
    obtain ⟨hs1, hsN, hse2, he2N, hcases⟩ :=
      resolveRange_ok_inv ((filteredChapters env).length : Int) cfg.chapter_start
        cfg.chapter_end e2 hN hres
    rcases hcases with ⟨he, h2⟩ | ⟨he, h2⟩
    · subst h2
      rw [if_pos ⟨he, hs1, hsN⟩]
    · subst h2
      rw [if_neg (by rintro ⟨he2, -, -⟩; exact he he2)]

/-- Claim C2 (amended): when the artifact sink is present and raises while
delivering the current chapter's artifact, the per-chapter step exits with
that error — the artifact is NOT deleted (it remains on local storage), the
delivery was attempted, and no further chapter is processed; the exception
then propagates to the top-level handler, which reports
"An error occurred: …" and re-raises. -/
theorem delivery_failure_step (env : Env) (cfg : GeneralConfig)
    (selCount idx : Nat) (c : Chapter) (rest : List Chapter) (st : RunState)
    (f : String → Option String) (err : String)
    (hmsg : env.msgPresent = true)
    (hprev : cfg.preview = false)
    (hsink : env.audioSink = some f)
    (hlo : cfg.chapter_start ≤ (idx : Int))
    (hhi : (idx : Int) ≤ cfg.chapter_end)
    (htts : env.ttsResult c.text (outputPath cfg env idx c.title) = none)
    (hfail : f (outputPath cfg env idx c.title) = some err) :
    ∃ st2, convert_loop env cfg selCount idx (c :: rest) st = .error (err, st2)
      ∧ outputPath cfg env idx c.title ∈ st2.audioFiles
      ∧ st2.deliveries = st.deliveries ++ [outputPath cfg env idx c.title]
      ∧ st2.artifacts = st.artifacts ++ [outputPath cfg env idx c.title]
      ∧ st2.messages = st.messages ++ [chapterMsg cfg.preview idx selCount c] := by
  simp only [convert_loop]
  rw [if_neg (not_lt.mpr hlo), if_neg (not_lt.mpr hhi)]
  simp only [sendMsgE_present env hmsg]
  rw [if_neg (by simp [hprev])]
  simp only [htts, hsink, hfail]
  refine ⟨_, rfl, ?_, ?_, ?_, ?_⟩
  · simp only [dumpText_audioFiles]
    split
    · rename_i hmem; simpa using hmem
    · simp
  · simp [dumpText_deliveries]
  · simp [dumpText_artifacts]
  · simp [dumpText_messages]

/-- Claim C2 (amended, witness): delivering chapter 1 of 2 with a sink that
raises "boom" makes the loop exit with "boom", the artifact still on disk,
the delivery attempted, and chapter 2 untouched. -/
theorem delivery_failure_step_witness :
    ∃ st2, convert_loop envDeliveryFail cfgWhole2 2 1
        [{ title := "t1", text := "a" }, { title := "t2", text := "b" }]
        initState = .error ("boom", st2)
      ∧ outputPath cfgWhole2 envDeliveryFail 1 "t1" ∈ st2.audioFiles
      ∧ st2.deliveries = initState.deliveries ++
          [outputPath cfgWhole2 envDeliveryFail 1 "t1"]
      ∧ st2.artifacts = initState.artifacts ++
          [outputPath cfgWhole2 envDeliveryFail 1 "t1"]
      ∧ st2.messages = initState.messages ++
          [chapterMsg cfgWhole2.preview 1 2 { title := "t1", text := "a" }] :=
  delivery_failure_step envDeliveryFail cfgWhole2 2 1
    { title := "t1", text := "a" } [{ title := "t2", text := "b" }] initState
    (fun _ => some "boom") "boom" rfl rfl rfl (by decide) (by decide) rfl rfl

/-- Claim C8 (amended): post-delivery cleanup does NOT tolerate a missing
file — `os.remove` raises `FileNotFoundError` on a non-existent path — but
within the run the cleanup after a successful delivery always succeeds and
never hits that error, because the artifact was created by the backend
immediately beforehand: after the step the artifact is gone from local
storage and the loop continues with the next chapter. -/
theorem cleanup_intolerant_but_safe (fs : List String) (p : String)
    (env : Env) (cfg : GeneralConfig) (selCount idx : Nat) (c : Chapter)
    (rest : List Chapter) (st : RunState) (f : String → Option String)
    (hmsg : env.msgPresent = true)
    (hprev : cfg.preview = false)
    (hsink : env.audioSink = some f)
    (hlo : cfg.chapter_start ≤ (idx : Int))
    (hhi : (idx : Int) ≤ cfg.chapter_end)
    (htts : env.ttsResult c.text (outputPath cfg env idx c.title) = none)
    (hdel : f (outputPath cfg env idx c.title) = none)
    (hnew : outputPath cfg env idx c.title ∉ st.audioFiles) :
    (p ∉ fs → osRemove fs p = .error ("FileNotFoundError: " ++ p))
    ∧ ∃ st2, convert_loop env cfg selCount idx (c :: rest) st =
          convert_loop env cfg selCount (idx + 1) rest st2
        ∧ st2.audioFiles = st.audioFiles
        ∧ outputPath cfg env idx c.title ∉ st2.audioFiles := by
  constructor
  · intro hnotin
    unfold osRemove
    rw [if_neg hnotin]
  · have hrem : osRemove (st.audioFiles ++ [outputPath cfg env idx c.title])
        (outputPath cfg env idx c.title) = .ok st.audioFiles := by
      unfold osRemove
      rw [if_pos (by simp), List.erase_append_right _ hnew]
      simp
    simp only [convert_loop]
    rw [if_neg (not_lt.mpr hlo), if_neg (not_lt.mpr hhi)]
    simp only [sendMsgE_present env hmsg]
    rw [if_neg (by simp [hprev])]
    simp only [htts, hsink, hdel, dumpText_audioFiles]
    rw [if_neg hnew]
    simp only [hrem]
    exact ⟨_, rfl, rfl, hnew⟩

/-- Claim C8 (amended, witness): `osRemove` raises on a missing file, and a
concrete successful per-chapter delivery step deletes the artifact and
continues to the next chapter. -/
theorem cleanup_intolerant_but_safe_witness :
    (osRemove ["x.mp3"] "y.mp3" = .error ("FileNotFoundError: " ++ "y.mp3"))
    ∧ ∃ st2, convert_loop envDeliverOk cfgWhole2 2 1
          [{ title := "t1", text := "a" }, { title := "t2", text := "b" }]
          initState =
        convert_loop envDeliverOk cfgWhole2 2 (1 + 1)
          [{ title := "t2", text := "b" }] st2
      ∧ st2.audioFiles = initState.audioFiles
      ∧ outputPath cfgWhole2 envDeliverOk 1 "t1" ∉ st2.audioFiles :=
  ⟨(cleanup_intolerant_but_safe ["x.mp3"] "y.mp3" envDeliverOk cfgWhole2 2 1
      { title := "t1", text := "a" } [{ title := "t2", text := "b" }] initState
      (fun _ => none) rfl rfl rfl (by decide) (by decide) rfl rfl
      (by decide)).1 (by decide),
   (cleanup_intolerant_but_safe ["x.mp3"] "y.mp3" envDeliverOk cfgWhole2 2 1
      { title := "t1", text := "a" } [{ title := "t2", text := "b" }] initState
      (fun _ => none) rfl rfl rfl (by decide) (by decide) rfl rfl
      (by decide)).2⟩

/-- Looking up a key just set yields the new value. -/
lemma lookupAttr_setattr_self (ns : List (String × PyVal)) (k : String)
    (v : PyVal) : lookupAttr (setattr ns k v) k = some v := by
  induction ns with
  | nil => simp [setattr, lookupAttr]
  | cons kv rest ih =>
    obtain ⟨k2, v2⟩ := kv
    by_cases h : k2 = k
    · simp [setattr, h, lookupAttr]
    · simp [setattr, h, lookupAttr, ih]

/-- Setting one key leaves lookups of other keys unchanged. -/
lemma lookupAttr_setattr_other (ns : List (String × PyVal)) (k k2 : String)
    (v : PyVal) (h : k ≠ k2) :
    lookupAttr (setattr ns k v) k2 = lookupAttr ns k2 := by
  induction ns with
  | nil => simp [setattr, lookupAttr, h]
  | cons kv rest ih =>
    obtain ⟨k3, v3⟩ := kv
    by_cases h3 : k3 = k
    · subst h3
      simp [setattr, lookupAttr, h]
    · simp [setattr, h3, lookupAttr, ih]

/-- A key matching no binding looks up to `none`. -/
lemma lookupAttr_eq_none_of_any_eq_false (ns : List (String × PyVal))
    (k : String) (h : (ns.any fun kv => kv.1 == k) = false) :
    lookupAttr ns k = none := by
  induction ns with
  | nil => rfl
  | cons kv rest ih =>
    obtain ⟨k2, v2⟩ := kv
    simp only [List.any_cons, Bool.or_eq_false_iff, beq_eq_false_iff_ne, ne_eq] at h
    simp [lookupAttr, h.1, ih h.2]

/-- Override keys absent from the override list do not change lookups. -/
lemma applyCustom_lookup_not_mem (tts0 : String) (l : List (String × PyVal))
    (k : String) :
    k ∉ l.map Prod.fst →
    ∀ ns ws, lookupAttr (applyCustom tts0 l (ns, ws)).1 k = lookupAttr ns k := by
  induction l with
  | nil => intro _ ns ws; rfl
  | cons kv rest ih =>
    obtain ⟨k2, v2⟩ := kv
    intro h ns ws
    simp only [List.map_cons, List.mem_cons, not_or] at h
    simp only [applyCustom]
    split
    · rw [ih h.2, lookupAttr_setattr_other ns k2 k v2 (Ne.symm h.1)]
    · exact ih h.2 ns _

/-- Warnings printed so far are preserved by the override loop. -/
lemma applyCustom_warn_mono (tts0 : String) (l : List (String × PyVal)) :
    ∀ ns ws w, w ∈ ws → w ∈ (applyCustom tts0 l (ns, ws)).2 := by
  induction l with
  | nil => intro ns ws w hw; exact hw
  | cons kv rest ih =>
    obtain ⟨k2, v2⟩ := kv
    intro ns ws w hw
    simp only [applyCustom]
    split
    · exact ih _ _ _ hw
    · exact ih _ _ _ (by simp [hw])

/-- A recognised override key ends up mapped to the supplied value. -/
lemma applyCustom_known_override (tts0 : String) (l : List (String × PyVal))
    (k : String) (v : PyVal) :
    (l.map Prod.fst).Nodup → (k, v) ∈ l → knownKey tts0 k = true →
    ∀ ns ws, lookupAttr (applyCustom tts0 l (ns, ws)).1 k = some v := by
  induction l with
  | nil => intro _ hmem; cases hmem
  | cons kv rest ih =>
    obtain ⟨k2, v2⟩ := kv
    intro hnd hmem hk ns ws
    simp only [List.map_cons, List.nodup_cons] at hnd
    simp only [applyCustom]
    rcases List.mem_cons.mp hmem with heq | hmem2
    · injection heq with h1 h2
      subst h1
      subst h2
      split
      · rw [applyCustom_lookup_not_mem tts0 rest k hnd.1, lookupAttr_setattr_self]
      · rename_i hc
        exact absurd hk (by simpa using hc)
    · split
      · exact ih hnd.2 hmem2 hk _ _
      · exact ih hnd.2 hmem2 hk _ _

/-- An unrecognised key never becomes an attribute. -/
lemma applyCustom_unknown_none (tts0 : String) (l : List (String × PyVal))
    (k : String) :
    knownKey tts0 k = false →
    ∀ ns ws, lookupAttr ns k = none →
      lookupAttr (applyCustom tts0 l (ns, ws)).1 k = none := by
  induction l with
  | nil => intro _ ns ws hns; exact hns
  | cons kv rest ih =>
    obtain ⟨k2, v2⟩ := kv
    intro hk ns ws hns
    simp only [applyCustom]
    split
    · rename_i hc
      refine ih hk _ _ ?_
      by_cases he : k2 = k
      · exact absurd (he ▸ hc) (by simp [hk])
      · rw [lookupAttr_setattr_other ns k2 k v2 he]
        exact hns
    · exact ih hk ns _ hns

/-- An unrecognised override key produces its warning and stays out of the
attribute namespace. -/
lemma applyCustom_unknown (tts0 : String) (l : List (String × PyVal))
    (k : String) (v : PyVal) :
    (k, v) ∈ l → knownKey tts0 k = false →
    ∀ ns ws, lookupAttr ns k = none →
      warnMsg k ∈ (applyCustom tts0 l (ns, ws)).2
      ∧ lookupAttr (applyCustom tts0 l (ns, ws)).1 k = none := by
  induction l with
  | nil => intro hmem; cases hmem
  | cons kv rest ih =>
    obtain ⟨k2, v2⟩ := kv
    intro hmem hk ns ws hns
    simp only [applyCustom]
    rcases List.mem_cons.mp hmem with heq | hmem2
    · injection heq with h1 h2
      subst h1
      subst h2
      split
      · rename_i hc
        exact absurd hk (by simpa using hc)
      · refine ⟨applyCustom_warn_mono tts0 rest ns (ws ++ [warnMsg k]) _ (by simp), ?_⟩
        exact applyCustom_unknown_none tts0 rest k hk ns _ hns
    · split
      · rename_i hc
        refine ih hmem2 hk _ _ ?_
        by_cases he : k2 = k
        · exact absurd (he ▸ hc) (by simp [hk])
        · rw [lookupAttr_setattr_other ns k2 k v2 he]
          exact hns
      · exact ih hmem2 hk ns _ hns

set_option maxHeartbeats 1000000 in
/-- The defaults loop over the empty namespace produces exactly the defaults
dictionary. -/
lemma initialArgs_eq (tts0 : String) : initialArgs tts0 = defaultsList tts0 := by
  simp [initialArgs, defaultsList, setattr]

/-- Claim C10: in `CustomGeneralConfig.__init__`, every caller-supplied key
present in the known-defaults dictionary overrides its default, every
unknown key only produces a printed warning and never becomes an attribute
(construction is a total function that cannot fail), keys not supplied keep
their defaults, and in particular omitted `chapter_start`/`chapter_end`
default to 4 and 6 — the debugging leftovers — not to 1 and -1. -/
theorem customGeneralConfig_args (tts0 : String)
    (custom : List (String × PyVal))
    (hnd : (custom.map Prod.fst).Nodup) :
    (∀ k v, (k, v) ∈ custom → knownKey tts0 k = true →
        lookupAttr (buildArgs tts0 custom).1 k = some v)
  ∧ (∀ k v, (k, v) ∈ custom → knownKey tts0 k = false →
        warnMsg k ∈ (buildArgs tts0 custom).2
        ∧ lookupAttr (buildArgs tts0 custom).1 k = none)
  ∧ (∀ k, k ∉ custom.map Prod.fst →
        lookupAttr (buildArgs tts0 custom).1 k = lookupAttr (defaultsList tts0) k)
  ∧ ("chapter_start" ∉ custom.map Prod.fst →
        lookupAttr (buildArgs tts0 custom).1 "chapter_start" = some (.pyInt 4))
  ∧ ("chapter_end" ∉ custom.map Prod.fst →
        lookupAttr (buildArgs tts0 custom).1 "chapter_end" = some (.pyInt 6)) := by
  refine ⟨?_, ?_, ?_, ?_, ?_⟩
  · intro k v hmem hk
    exact applyCustom_known_override tts0 custom k v hnd hmem hk (initialArgs tts0) []
  · intro k v hmem hk
    refine applyCustom_unknown tts0 custom k v hmem hk (initialArgs tts0) [] ?_
    rw [initialArgs_eq]
    exact lookupAttr_eq_none_of_any_eq_false _ _ (by simpa [knownKey] using hk)
  · intro k hk
    rw [show buildArgs tts0 custom = applyCustom tts0 custom (initialArgs tts0, [])
          from rfl,
        applyCustom_lookup_not_mem tts0 custom k hk, initialArgs_eq]
  · intro hk
    rw [show buildArgs tts0 custom = applyCustom tts0 custom (initialArgs tts0, [])
          from rfl,
        applyCustom_lookup_not_mem tts0 custom _ hk, initialArgs_eq]
    simp [defaultsList, lookupAttr]
  · intro hk
    rw [show buildArgs tts0 custom = applyCustom tts0 custom (initialArgs tts0, [])
          from rfl,
        applyCustom_lookup_not_mem tts0 custom _ hk, initialArgs_eq]
    simp [defaultsList, lookupAttr]

/-- Claim C10 (witness): with `{language: "fr", bogus: 1}`, `language` is
overridden, `bogus` is warned about and ignored, and the omitted
`chapter_start`/`chapter_end` come out as 4 and 6. -/
theorem customGeneralConfig_args_witness :
    lookupAttr (buildArgs "azure" customSample).1 "language" = some (.pyStr "fr")
    ∧ (warnMsg "bogus" ∈ (buildArgs "azure" customSample).2
       ∧ lookupAttr (buildArgs "azure" customSample).1 "bogus" = none)
    ∧ lookupAttr (buildArgs "azure" customSample).1 "chapter_start" =
        some (.pyInt 4)
    ∧ lookupAttr (buildArgs "azure" customSample).1 "chapter_end" =
        some (.pyInt 6) := by
  obtain ⟨h1, h2, h3, h4, h5⟩ :=
    customGeneralConfig_args "azure" customSample (by decide)
  exact ⟨h1 "language" (.pyStr "fr") (by decide) (by decide),
         h2 "bogus" (.pyInt 1) (by decide) (by decide),
         h4 (by decide), h5 (by decide)⟩

end EpubToAudiobook
